import Mathlib

/-
Verification development for the sendly-node client library core:
the resilient HTTP request layer (src/utils/http.ts), the error
taxonomy (src/errors.ts), the client construction path (src/client.ts),
and the webhook signature subsystem (src/utils/webhooks.ts).

The JavaScript source is embedded shallowly: machine numbers become
Int/Nat, nullable/optional values become Option, thrown exceptions
become Except, and the retry loop becomes a fuel-indexed recursion
whose fuel (maxRetries + 1) equals the number of loop iterations of the
source. External platform primitives (the WHATWG URL constructor, the
Node crypto HMAC, JSON.parse) are modelled: URL parsing by an
executable parser for scheme://host URLs, HMAC and JSON.parse as
abstract function parameters, since their internals are outside the
repository; every theorem about them holds for all instantiations.
-/

/-- Equality of `Except` values is decidable when it is on both
components; lets concrete runs of the embedded operations be checked
by `decide`. -/
instance {ε α : Type} [DecidableEq ε] [DecidableEq α] : DecidableEq (Except ε α) := fun a b =>
  match a, b with
  | .ok x, .ok y =>
    if h : x = y then .isTrue (by rw [h]) else .isFalse (fun hh => h (Except.ok.inj hh))
  | .error x, .error y =>
    if h : x = y then .isTrue (by rw [h]) else .isFalse (fun hh => h (Except.error.inj hh))
  | .ok _, .error _ => .isFalse (fun hh => Except.noConfusion hh)
  | .error _, .ok _ => .isFalse (fun hh => Except.noConfusion hh)

/-- JavaScript truthiness defaulting for strings: `x || d` where an
absent or empty string is falsy. -/
def jsOrStr : Option String → String → String
  | none, d => d
  | some s, d => if s.isEmpty then d else s

/-- JavaScript truthiness defaulting for numbers: `x || d` where an
absent value or 0 is falsy. -/
def jsOrInt : Option Int → Int → Int
  | none, d => d
  | some n, d => if n = 0 then d else n

/-- JavaScript truthiness of an optional string: absent and empty are
falsy, everything else truthy. -/
def jsTruthyStr : Option String → Bool
  | none => false
  | some s => !s.isEmpty

/-- Value of a decimal digit list, used by the parseInt model. -/
def digitsToNat (ds : List Char) : Nat :=
  ds.foldl (fun a c => a * 10 + (c.toNat - 48)) 0

/-- Model of JavaScript `parseInt(s, 10)`: skip leading whitespace, read
an optional sign and then the longest leading run of decimal digits;
`none` models the NaN result when no digit is found. -/
def jsParseInt (s : String) : Option Int :=
  let t := s.data.dropWhile Char.isWhitespace
  let signAndRest : Int × List Char :=
    match t with
    | '-' :: r => (-1, r)
    | '+' :: r => (1, r)
    | r => (1, r)
  let digits := signAndRest.2.takeWhile Char.isDigit
  if digits.isEmpty then none
  else some (signAndRest.1 * Int.ofNat (digitsToNat digits))

/-- Wire-level error body consumed by the taxonomy factory
(src/errors.ts): `{error, message, retryAfter, creditsNeeded,
currentBalance}`, every field optional. -/
structure ErrorResponse where
  error : Option String := none
  message : Option String := none
  retryAfter : Option Int := none
  creditsNeeded : Option Int := none
  currentBalance : Option Int := none
deriving DecidableEq

/-- Embedding of the `SendlyError` class hierarchy of src/errors.ts as a
single record: `name` is the subclass tag set by each constructor
(`instanceof RateLimitError` becomes `name = "RateLimitError"`), and the
subclass-specific fields are optional. -/
structure SendlyError where
  name : String
  message : String
  code : String
  statusCode : Option Int := none
  retryAfter : Option Int := none
  creditsNeeded : Option Int := none
  currentBalance : Option Int := none
deriving DecidableEq

/-- `SendlyError.fromResponse` of src/errors.ts: maps a wire error code
to the most specific error variant, with JavaScript `||` defaulting on
`message`, `code`, `retryAfter`, `creditsNeeded` and `currentBalance`. -/
def SendlyError.fromResponse (statusCode : Int) (response : ErrorResponse) : SendlyError :=
  let message := jsOrStr response.message "An unknown error occurred"
  let code := jsOrStr response.error "internal_error"
  if code == "unauthorized" || code == "invalid_auth_format" || code == "invalid_key_format" ||
      code == "invalid_api_key" || code == "key_revoked" || code == "key_expired" ||
      code == "insufficient_permissions" then
    { name := "AuthenticationError", message := message, code := code, statusCode := some statusCode }
  else if code == "rate_limit_exceeded" then
    { name := "RateLimitError", message := message, code := "rate_limit_exceeded",
      statusCode := some statusCode, retryAfter := some (jsOrInt response.retryAfter 60) }
  else if code == "insufficient_credits" then
    { name := "InsufficientCreditsError", message := message, code := "insufficient_credits",
      statusCode := some statusCode, creditsNeeded := some (jsOrInt response.creditsNeeded 0),
      currentBalance := some (jsOrInt response.currentBalance 0) }
  else if code == "invalid_request" || code == "unsupported_destination" then
    { name := "ValidationError", message := message, code := code, statusCode := some statusCode }
  else if code == "not_found" then
    { name := "NotFoundError", message := message, code := "not_found", statusCode := some statusCode }
  else
    { name := "SendlyError", message := message, code := code, statusCode := some statusCode }

/-- The three rate-limit response headers, each `none` when the header
is absent (`headers.get` returning null). -/
structure RateHeaders where
  limit : Option String := none
  remaining : Option String := none
  reset : Option String := none
deriving DecidableEq

/-- Rate Limit Snapshot `{limit, remaining, reset}`; a field is `none`
when `parseInt` produced NaN. -/
structure RateLimitInfo where
  limit : Option Int
  remaining : Option Int
  reset : Option Int
deriving DecidableEq

/-- `HttpClient.updateRateLimitInfo` of src/utils/http.ts: replace the
snapshot with the three parsed integers when `limit && remaining &&
reset` (all present with non-empty values), otherwise keep the current
snapshot. -/
def updateRateLimitInfo (current : Option RateLimitInfo) (headers : RateHeaders) :
    Option RateLimitInfo :=
  match headers.limit, headers.remaining, headers.reset with
  | some l, some r, some s =>
    if !l.isEmpty && !r.isEmpty && !s.isEmpty then
      some { limit := jsParseInt l, remaining := jsParseInt r, reset := jsParseInt s }
    else current
  | _, _, _ => current

/-- One HTTP response as seen by the request loop: the rate-limit
headers, the status, the parsed body for the success branch and the
parsed error body for the failure branch of `parseResponse`. -/
structure MockResponse (α : Type) where
  headers : RateHeaders := {}
  status : Int
  okData : α
  errBody : ErrorResponse := {}
deriving DecidableEq

/-- `HttpClient.parseResponse` of src/utils/http.ts: a success status
(`response.ok`, 200..299) yields the data; otherwise the error body is
defaulted (`error || "internal_error"`, `message || "HTTP <status>"`)
and classified through `SendlyError.fromResponse`. -/
def parseResponseM {α : Type} (r : MockResponse α) : Except SendlyError α :=
  if 200 ≤ r.status ∧ r.status ≤ 299 then .ok r.okData
  else
    .error (SendlyError.fromResponse r.status
      { r.errBody with
        error := some (jsOrStr r.errBody.error "internal_error")
        message := some (jsOrStr r.errBody.message ("HTTP " ++ toString r.status)) })

/-- A thrown JavaScript value inside the request loop: either a
`SendlyError` (everything `executeRequest` and `parseResponse` throw)
or any other unclassified exception. -/
inductive JsError where
  | sendly (e : SendlyError)
  | other (message : String)
deriving DecidableEq

/-- Outcome of one attempt of the transport: either the attempt threw
before producing a response (timeout, network failure, any unclassified
exception), or it produced an HTTP response. -/
inductive TransportResult (α : Type) where
  | threw (e : JsError)
  | resp (r : MockResponse α)
deriving DecidableEq

/-- The non-retryable test of the catch block of `HttpClient.request`:
a `SendlyError` with status 401, 403, 400, 404 or 402, or any
`RateLimitError`; every other thrown value is retryable. -/
def nonRetryableJs : JsError → Bool
  | .sendly e =>
    decide (e.statusCode = some 401) || decide (e.statusCode = some 403) ||
      decide (e.statusCode = some 400) || decide (e.statusCode = some 404) ||
      decide (e.statusCode = some 402) || decide (e.name = "RateLimitError")
  | .other _ => false

/-- The error-or-data outcome of one attempt, combining the transport
and `parseResponse`. -/
def attemptOf {α : Type} (t : TransportResult α) : Except JsError α :=
  match t with
  | .threw e => .error e
  | .resp r => (parseResponseM r).mapError JsError.sendly

/-- The rate-limit snapshot after one attempt: updated from the
response headers when a response arrived, untouched when the attempt
threw before a response existed. -/
def rlAfter {α : Type} (t : TransportResult α) (rl : Option RateLimitInfo) :
    Option RateLimitInfo :=
  match t with
  | .threw _ => rl
  | .resp r => updateRateLimitInfo rl r.headers

/-- `HttpClient.calculateBackoff` of src/utils/http.ts with the random
jitter draw made explicit: `min(2^attempt * 1000 + jitter, 30000)`. -/
def calculateBackoff (attempt : Nat) (jitterValue : ℚ) : ℚ :=
  min ((2 : ℚ) ^ attempt * 1000 + jitterValue) 30000

/-- The error thrown by the final `throw lastError || new NetworkError(...)`
fallback of `HttpClient.request` when no error was captured. -/
def fallbackNetworkError : SendlyError :=
  { name := "NetworkError", message := "Request failed after retries", code := "internal_error" }

/-- Result of one `request` call: the returned data or thrown error,
the number of transport invocations, the backoff sleeps performed, and
the final rate-limit snapshot. -/
structure RequestResult (α : Type) where
  result : Except JsError α
  attempts : Nat
  waits : List ℚ
  rateLimitInfo : Option RateLimitInfo

/-- The retry loop of `HttpClient.request` (src/utils/http.ts lines
175..208). `fuel` counts the remaining loop iterations; the loop runs
attempts numbered `attempt ≤ maxRetries`, so the top-level call uses
`fuel = maxRetries + 1`. Each iteration performs the attempt, updates
the rate-limit snapshot whenever a response arrived, re-throws a
non-retryable error at once, sleeps a backoff and retries a retryable
error while attempts remain, and on exhaustion throws the last observed
error (or the generic network fallback when none was captured). -/
def requestGo {α : Type} (transport : Nat → TransportResult α) (jitter : Nat → ℚ)
    (maxRetries : Nat) : Nat → Nat → Option RateLimitInfo → Option JsError → RequestResult α
  | 0, _, rl, lastErr => ⟨.error (lastErr.getD (.sendly fallbackNetworkError)), 0, [], rl⟩
  | fuel + 1, attempt, rl, _lastErr =>
    match transport attempt with
    | .threw e =>
      if nonRetryableJs e then ⟨.error e, 1, [], rl⟩
      else if attempt < maxRetries then
        let next := requestGo transport jitter maxRetries fuel (attempt + 1) rl (some e)
        ⟨next.result, next.attempts + 1,
          calculateBackoff attempt (jitter attempt) :: next.waits, next.rateLimitInfo⟩
      else ⟨.error e, 1, [], rl⟩
    | .resp r =>
      let rl2 := updateRateLimitInfo rl r.headers
      match parseResponseM r with
      | .ok d => ⟨.ok d, 1, [], rl2⟩
      | .error se =>
        if nonRetryableJs (.sendly se) then ⟨.error (.sendly se), 1, [], rl2⟩
        else if attempt < maxRetries then
          let next := requestGo transport jitter maxRetries fuel (attempt + 1) rl2
            (some (.sendly se))
          ⟨next.result, next.attempts + 1,
            calculateBackoff attempt (jitter attempt) :: next.waits, next.rateLimitInfo⟩
        else ⟨.error (.sendly se), 1, [], rl2⟩

/-- `HttpClient.request`: run the retry loop from attempt 0 with
`maxRetries + 1` available iterations. -/
def request {α : Type} (transport : Nat → TransportResult α) (jitter : Nat → ℚ)
    (maxRetries : Nat) (rateLimitInfo : Option RateLimitInfo) : RequestResult α :=
  requestGo transport jitter maxRetries (maxRetries + 1) 0 rateLimitInfo none

/-- Whether list `hay` starts with list `needle`. -/
def charsStartWith : List Char → List Char → Bool
  | _, [] => true
  | [], _ :: _ => false
  | c :: cs, d :: ds => c == d && charsStartWith cs ds

/-- Whether `needle` occurs as a contiguous sublist of `hay`; models
JavaScript `String.includes`. -/
def charsContainSub (hay needle : List Char) : Bool :=
  match hay with
  | [] => charsStartWith [] needle
  | c :: rest => charsStartWith (c :: rest) needle || charsContainSub rest needle

/-- JavaScript `hay.includes(needle)` on strings. -/
def strContains (hay needle : String) : Bool :=
  charsContainSub hay.data needle.data

/-- Character class of the credential token: `[a-zA-Z0-9_-]`. -/
def isTokenChar (c : Char) : Bool :=
  c.isAlpha || c.isDigit || c == '_' || c == '-'

/-- `HttpClient.isValidApiKey`: the regular expression
`^sk_(test|live)_v1_[a-zA-Z0-9_-]+$` made executable. -/
def isValidApiKey (key : String) : Bool :=
  (charsStartWith key.data "sk_test_v1_".data || charsStartWith key.data "sk_live_v1_".data) &&
    (let rest := key.data.drop 11
     !rest.isEmpty && rest.all isTokenChar)

/-- Scheme characters accepted by the URL parser model. -/
def isSchemeChar (c : Char) : Bool :=
  c.isAlpha || c.isDigit || c == '+' || c == '-' || c == '.'

/-- Split a character list at the first occurrence of `://`. -/
def findSchemeSplit : List Char → Option (List Char × List Char)
  | [] => none
  | ':' :: '/' :: '/' :: rest => some ([], rest)
  | c :: rest => (findSchemeSplit rest).map (fun p => (c :: p.1, p.2))

/-- Drop everything up to and including the last `@` (userinfo) of an
authority component. -/
def afterLastAt : List Char → List Char
  | [] => []
  | c :: rest => if c == '@' || rest.contains '@' then afterLastAt rest else c :: rest

/-- The two URL components read by the constructor validation. -/
structure UrlParts where
  protocol : String
  hostname : String
deriving DecidableEq

/-- Model of the WHATWG `new URL(s)` platform primitive for
`scheme://[userinfo@]host[:port][/path...]` URLs: yields the `protocol`
(scheme with trailing colon, lowercased) and the `hostname`
(lowercased, port stripped); `none` models the TypeError thrown on an
input this simplified grammar rejects. -/
def parseURL (s : String) : Option UrlParts :=
  match findSchemeSplit s.data with
  | none => none
  | some (schemeChars, afterScheme) =>
    match schemeChars with
    | [] => none
    | c0 :: _ =>
      if c0.isAlpha && schemeChars.all isSchemeChar then
        let authority := afterScheme.takeWhile (fun c => !(c == '/' || c == '?' || c == '#'))
        let host := (afterLastAt authority).takeWhile (fun c => c != ':')
        if host.isEmpty then none
        else some ⟨String.mk (schemeChars.map Char.toLower) ++ ":",
          String.mk (host.map Char.toLower)⟩
      else none

/-- Caller-supplied client configuration before defaulting; an absent
field is `none`, and a supplied `baseUrl` or `timeout` may still be
falsy (empty string, 0). -/
structure HttpClientConfigIn where
  apiKey : String
  baseUrl : Option String := none
  timeout : Option Int := none
  maxRetries : Option Nat := none
deriving DecidableEq

/-- The resolved, immutable client configuration. -/
structure HttpClientConfig where
  apiKey : String
  baseUrl : String
  timeout : Int
  maxRetries : Nat
deriving DecidableEq

def DEFAULT_BASE_URL : String := "https://sendly.live/api/"

def DEFAULT_TIMEOUT : Int := 30000

def DEFAULT_MAX_RETRIES : Nat := 3

/-- The mutable state of one `HttpClient` instance: the frozen
configuration and the rate-limit snapshot. -/
structure HttpClientState where
  config : HttpClientConfig
  rateLimitInfo : Option RateLimitInfo := none
deriving DecidableEq

/-- The config-defaulting assignment at the top of the `HttpClient`
constructor: `baseUrl || DEFAULT_BASE_URL`, `timeout || DEFAULT_TIMEOUT`,
`maxRetries ?? DEFAULT_MAX_RETRIES`. -/
def resolveHttpConfig (cfg : HttpClientConfigIn) : HttpClientConfig :=
  { apiKey := cfg.apiKey
    baseUrl := jsOrStr cfg.baseUrl DEFAULT_BASE_URL
    timeout := jsOrInt cfg.timeout DEFAULT_TIMEOUT
    maxRetries := cfg.maxRetries.getD DEFAULT_MAX_RETRIES }

/-- The `HttpClient` constructor (src/utils/http.ts lines 131..149):
default the configuration, reject a key failing `isValidApiKey`, parse
the base URL, and reject a URL whose protocol is not `https:` unless
its hostname contains `localhost` or equals `127.0.0.1`. All failures
are synchronous throws, before any network use. -/
def HttpClient.new (cfg : HttpClientConfigIn) : Except String HttpClientState :=
  let config := resolveHttpConfig cfg
  if !isValidApiKey config.apiKey then
    .error "Invalid API key format. Expected sk_test_v1_xxx or sk_live_v1_xxx"
  else
    match parseURL config.baseUrl with
    | none => .error "Invalid base URL"
    | some u =>
      if u.protocol != "https:" && !strContains u.hostname "localhost" &&
          u.hostname != "127.0.0.1" then
        .error "API key must only be transmitted over HTTPS. Use https:// or localhost for development."
      else .ok { config := config, rateLimitInfo := none }

def DEFAULT_BASE_URL2 : String := "https://sendly.live/api"

def DEFAULT_TIMEOUT2 : Int := 30000

def DEFAULT_MAX_RETRIES2 : Nat := 3

/-- The configuration-object branch of the public `Sendly` constructor
(src/client.ts lines 957..964): `baseUrl || DEFAULT_BASE_URL`,
`timeout || DEFAULT_TIMEOUT` (falsy coalescing), `maxRetries ??
DEFAULT_MAX_RETRIES` (nullish coalescing). -/
def Sendly.resolveConfig (cfg : HttpClientConfigIn) : HttpClientConfig :=
  { apiKey := cfg.apiKey
    baseUrl := jsOrStr cfg.baseUrl DEFAULT_BASE_URL2
    timeout := jsOrInt cfg.timeout DEFAULT_TIMEOUT2
    maxRetries := cfg.maxRetries.getD DEFAULT_MAX_RETRIES2 }

/-- Applying a rate-limit header update to a whole client state; only
the `rateLimitInfo` field may change. -/
def HttpClientState.updateRateLimit (st : HttpClientState) (headers : RateHeaders) :
    HttpClientState :=
  { st with rateLimitInfo := updateRateLimitInfo st.rateLimitInfo headers }

/-- Webhook event structure as seen by the structural check of
`parseWebhookEvent`: the three required fields, each absent or a
string (an empty string is falsy and counts as missing). -/
structure WebhookEventJs where
  id : Option String := none
  type : Option String := none
  createdAt : Option String := none
deriving DecidableEq

/-- The two error kinds thrown by `parseWebhookEvent`: the dedicated
`WebhookSignatureError` class, and the plain `Error` used for both
structural failures. -/
inductive WebhookErr where
  | signatureError
  | genericError (message : String)
deriving DecidableEq

/-- `generateWebhookSignature` of src/utils/webhooks.ts:
`"sha256=" + hex(hmacSha256(secret, payload))`. The HMAC itself is the
Node crypto primitive, abstracted as the function parameter
`hmacSha256Hex` taking the secret (key) and the payload. -/
def generateWebhookSignature (hmacSha256Hex : String → String → String)
    (payload secret : String) : String :=
  "sha256=" ++ hmacSha256Hex secret payload

/-- `crypto.timingSafeEqual` on the UTF-8 buffers of two strings, with
the length-mismatch throw caught and turned into `false` (as in
`verifyWebhookSignature`). Extensionally this is string equality, with
unequal lengths rejected first. -/
def timingSafeEqualStrings (a b : String) : Bool :=
  if a.length = b.length then a == b else false

/-- `verifyWebhookSignature` of src/utils/webhooks.ts: false when
payload, signature or secret is falsy; otherwise a timing-safe
comparison of the supplied signature against the recomputed expected
signature. -/
def verifyWebhookSignature (hmacSha256Hex : String → String → String)
    (payload signature secret : String) : Bool :=
  if payload.isEmpty || signature.isEmpty || secret.isEmpty then false
  else timingSafeEqualStrings signature (generateWebhookSignature hmacSha256Hex payload secret)

/-- `parseWebhookEvent` of src/utils/webhooks.ts: throw the dedicated
signature error when verification fails; then parse the payload
(`JSON.parse` abstracted as the `jsonParse` parameter, `none` modelling
a parse throw), throwing a structural error on a parse failure or on a
falsy `id`, `type` or `createdAt`. -/
def parseWebhookEvent (hmacSha256Hex : String → String → String)
    (jsonParse : String → Option WebhookEventJs)
    (payload signature secret : String) : Except WebhookErr WebhookEventJs :=
  if verifyWebhookSignature hmacSha256Hex payload signature secret then
    match jsonParse payload with
    | none => .error (.genericError "Failed to parse webhook payload")
    | some event =>
      if jsTruthyStr event.id && jsTruthyStr event.type && jsTruthyStr event.createdAt then
        .ok event
      else .error (.genericError "Invalid webhook event structure")
  else .error .signatureError

/-- Concrete stand-in used to instantiate the abstract HMAC parameter
in witnesses and counterexamples: a deterministic executable hex hash.
It is not SHA-256; every webhook theorem is proved for all choices of
the primitive. -/
def hmacHexModel (secret payload : String) : String :=
  String.mk (Nat.toDigits 16
    ((secret ++ "|" ++ payload).data.foldl (fun a c => (a * 131 + c.toNat) % 4294967296)
      2166136261))

/-- Concrete JSON parser stand-in for witnesses: recognizes two fixed
payloads. -/
def jsonParseModel (payload : String) : Option WebhookEventJs :=
  if payload == "valid-payload" then
    some { id := some "evt_1", type := some "message.sent", createdAt := some "2025-01-01" }
  else if payload == "noid-payload" then
    some { id := none, type := some "message.sent", createdAt := some "2025-01-01" }
  else none

/-- Mock 500 response used by the retry-scenario fixtures. -/
def resp500 : MockResponse Nat := { status := 500, okData := 0 }

/-- Mock 200 response carrying payload 42. -/
def resp200 : MockResponse Nat := { status := 200, okData := 42 }

/-- Mock transport returning HTTP 500 on the first two attempts and 200
afterwards. -/
def transport500x2 : Nat → TransportResult Nat :=
  fun n => if n < 2 then .resp resp500 else .resp resp200

/-- Mock 401 response with an `unauthorized` error body. -/
def resp401 : MockResponse Nat :=
  { status := 401, okData := 0,
    errBody := { error := some "unauthorized", message := some "Unauthorized" } }

/-- Mock transport that always returns HTTP 401. -/
def transport401 : Nat → TransportResult Nat := fun _ => .resp resp401

/-- Mock 429 response with `{error: "rate_limit_exceeded", retryAfter: 45}`. -/
def resp429 : MockResponse Nat :=
  { status := 429, okData := 0,
    errBody := { error := some "rate_limit_exceeded", retryAfter := some 45 } }

/-- Mock transport that always returns the 429 rate-limit response. -/
def transport429 : Nat → TransportResult Nat := fun _ => .resp resp429

/-- Zero jitter source for concrete witnesses. -/
def jitter0 : Nat → ℚ := fun _ => 0

/-- The classified error produced by an attempt against `resp401`. -/
def err401 : SendlyError :=
  SendlyError.fromResponse 401 { error := some "unauthorized", message := some "Unauthorized" }

/-- The classified error produced by an attempt against `resp429`. -/
def err429 : SendlyError :=
  SendlyError.fromResponse 429
    { error := some "rate_limit_exceeded", message := some "HTTP 429", retryAfter := some 45 }

/-- The classified error produced by an attempt against `resp500`. -/
def err500 : SendlyError :=
  SendlyError.fromResponse 500 { error := some "internal_error", message := some "HTTP 500" }

/-- A successful first attempt returns its data at once. -/
theorem request_first_ok {α : Type} (t : Nat → TransportResult α) (j : Nat → ℚ)
    (mr : Nat) (rl : Option RateLimitInfo) (r : MockResponse α) (d : α)
    (ht : t 0 = .resp r) (hp : parseResponseM r = .ok d) :
    request t j mr rl = ⟨.ok d, 1, [], updateRateLimitInfo rl r.headers⟩ := by
  unfold request
  simp [requestGo, ht, hp]

/-- A non-retryable error on the first attempt is re-thrown at once. -/
theorem request_first_nonretryable {α : Type} (t : Nat → TransportResult α) (j : Nat → ℚ)
    (mr : Nat) (rl : Option RateLimitInfo) (e : JsError)
    (ht : attemptOf (t 0) = .error e) (hnr : nonRetryableJs e = true) :
    request t j mr rl = ⟨.error e, 1, [], rlAfter (t 0) rl⟩ := by
  unfold request
  cases htr : t 0 with
  | threw e2 =>
    have he : e2 = e := by simpa [attemptOf, htr] using ht
    subst he
    simp [requestGo, htr, hnr, rlAfter]
  | resp r =>
    cases hp : parseResponseM r with
    | ok d => simp [attemptOf, htr, hp, Except.mapError] at ht
    | error se =>
      have he : JsError.sendly se = e := by
        simpa [attemptOf, htr, hp, Except.mapError] using ht
      subst he
      simp [requestGo, htr, hp, hnr, rlAfter]

/-- A retryable error with attempts remaining sleeps one backoff and
recurses on the next attempt. -/
theorem requestGo_step_retryable {α : Type} (t : Nat → TransportResult α) (j : Nat → ℚ)
    (mr fuel attempt : Nat) (rl : Option RateLimitInfo) (le : Option JsError) (e : JsError)
    (ht : attemptOf (t attempt) = .error e) (hnr : nonRetryableJs e = false)
    (hlt : attempt < mr) :
    (requestGo t j mr (fuel + 1) attempt rl le).result =
      (requestGo t j mr fuel (attempt + 1) (rlAfter (t attempt) rl) (some e)).result ∧
    (requestGo t j mr (fuel + 1) attempt rl le).attempts =
      (requestGo t j mr fuel (attempt + 1) (rlAfter (t attempt) rl) (some e)).attempts + 1 ∧
    (requestGo t j mr (fuel + 1) attempt rl le).waits =
      calculateBackoff attempt (j attempt) ::
        (requestGo t j mr fuel (attempt + 1) (rlAfter (t attempt) rl) (some e)).waits ∧
    (requestGo t j mr (fuel + 1) attempt rl le).rateLimitInfo =
      (requestGo t j mr fuel (attempt + 1) (rlAfter (t attempt) rl) (some e)).rateLimitInfo := by
  cases htr : t attempt with
  | threw e2 =>
    have he : e2 = e := by simpa [attemptOf, htr] using ht
    subst he
    simp [requestGo, htr, hnr, hlt, rlAfter]
  | resp r =>
    cases hp : parseResponseM r with
    | ok d => simp [attemptOf, htr, hp, Except.mapError] at ht
    | error se =>
      have he : JsError.sendly se = e := by
        simpa [attemptOf, htr, hp, Except.mapError] using ht
      subst he
      simp [requestGo, htr, hp, hnr, hlt, rlAfter]

/-- A retryable error with no attempt remaining throws the error. -/
theorem requestGo_last_retryable {α : Type} (t : Nat → TransportResult α) (j : Nat → ℚ)
    (mr fuel attempt : Nat) (rl : Option RateLimitInfo) (le : Option JsError) (e : JsError)
    (ht : attemptOf (t attempt) = .error e) (hnr : nonRetryableJs e = false)
    (hge : ¬ attempt < mr) :
    requestGo t j mr (fuel + 1) attempt rl le = ⟨.error e, 1, [], rlAfter (t attempt) rl⟩ := by
  cases htr : t attempt with
  | threw e2 =>
    have he : e2 = e := by simpa [attemptOf, htr] using ht
    subst he
    simp [requestGo, htr, hnr, hge, rlAfter]
  | resp r =>
    cases hp : parseResponseM r with
    | ok d => simp [attemptOf, htr, hp, Except.mapError] at ht
    | error se =>
      have he : JsError.sendly se = e := by
        simpa [attemptOf, htr, hp, Except.mapError] using ht
      subst he
      simp [requestGo, htr, hp, hnr, hge, rlAfter]

/-- When every attempt fails with a retryable error, the loop uses all
its iterations, sleeps between consecutive attempts, and throws the
error of the last attempt. -/
theorem requestGo_exhaust {α : Type} (t : Nat → TransportResult α) (j : Nat → ℚ)
    (mr : Nat) (es : Nat → JsError)
    (H : ∀ n, attemptOf (t n) = .error (es n) ∧ nonRetryableJs (es n) = false) :
    ∀ (fuel attempt : Nat) (rl : Option RateLimitInfo) (le : Option JsError),
      attempt + fuel = mr + 1 → 0 < fuel →
      (requestGo t j mr fuel attempt rl le).result = .error (es mr) ∧
        (requestGo t j mr fuel attempt rl le).attempts = fuel ∧
        (requestGo t j mr fuel attempt rl le).waits.length = fuel - 1 := by
  intro fuel
  induction fuel with
  | zero => intro attempt rl le hsum hpos; omega
  | succ f ih =>
    intro attempt rl le hsum hpos
    by_cases hf : f = 0
    · subst hf
      have ha : attempt = mr := by omega
      rw [requestGo_last_retryable t j mr 0 attempt rl le (es attempt)
        (H attempt).1 (H attempt).2 (by omega)]
      exact ⟨by rw [ha], rfl, rfl⟩
    · have hlt : attempt < mr := by omega
      obtain ⟨h1, h2, h3, _⟩ := requestGo_step_retryable t j mr f attempt rl le (es attempt)
        (H attempt).1 (H attempt).2 hlt
      have ih2 := ih (attempt + 1) (rlAfter (t attempt) rl) (some (es attempt))
        (by omega) (by omega)
      refine ⟨h1.trans ih2.1, ?_, ?_⟩
      · have := ih2.2.1
        omega
      · rw [h3, List.length_cons]
        have := ih2.2.2
        omega

/-- The empty string is empty. -/
theorem empty_isEmpty : ("" : String).isEmpty = true := rfl

/-- A string different from the empty string has `isEmpty = false`. -/
theorem isEmpty_false_of_ne (s : String) (h : s ≠ "") : s.isEmpty = false := by
  cases hs : s.isEmpty
  · rfl
  · exact absurd ((String.isEmpty_iff s).mp hs) h

/-- A generated signature, carrying the `sha256=` marker, is never the
empty string. -/
theorem sha_sig_ne_empty (x : String) : ("sha256=" ++ x) ≠ "" := by
  intro h
  have hl := congrArg String.length h
  rw [String.length_append] at hl
  simp at hl
  exact absurd hl.1 (by decide)

/-- C1 counterexample: the configuration with a well-formed key and
base URL `http://notlocalhost.example.com` is neither HTTPS nor has
hostname `localhost` or `127.0.0.1`, yet construction succeeds, because
the source tests `hostname.includes("localhost")` and
`notlocalhost.example.com` contains `localhost` as a substring. -/
theorem construction_localhost_substring_counterexample :
    HttpClient.new { apiKey := "sk_test_v1_abc", baseUrl := some "http://notlocalhost.example.com" } =
      .ok ⟨⟨"sk_test_v1_abc", "http://notlocalhost.example.com", 30000, 3⟩, none⟩ ∧
    parseURL "http://notlocalhost.example.com" =
      some ⟨"http:", "notlocalhost.example.com"⟩ ∧
    ("http:" : String) ≠ "https:" ∧
    ("notlocalhost.example.com" : String) ≠ "localhost" ∧
    ("notlocalhost.example.com" : String) ≠ "127.0.0.1" := by
  refine ⟨by decide, by decide, by decide, by decide, by decide⟩

/-- C1 (amended): construction succeeds exactly when the API key
matches the credential pattern and the defaulted base URL parses to a
URL that is HTTPS, or whose hostname contains the substring
`localhost`, or whose hostname equals `127.0.0.1`; every other
configuration fails synchronously with a configuration error, before
any network use. -/
theorem construction_validation_amended (cfg : HttpClientConfigIn) :
    (∃ st, HttpClient.new cfg = .ok st) ↔
      (isValidApiKey cfg.apiKey = true ∧
        ∃ u, parseURL (jsOrStr cfg.baseUrl DEFAULT_BASE_URL) = some u ∧
          (u.protocol = "https:" ∨ strContains u.hostname "localhost" = true ∨
            u.hostname = "127.0.0.1")) := by
  unfold HttpClient.new
  by_cases hk : isValidApiKey (resolveHttpConfig cfg).apiKey
  · have hk2 : isValidApiKey cfg.apiKey = true := hk
    cases hu : parseURL (resolveHttpConfig cfg).baseUrl with
    | none =>
      have hu2 : parseURL (jsOrStr cfg.baseUrl DEFAULT_BASE_URL) = none := hu
      simp [hk, hu, hu2, hk2]
    | some u =>
      have hu2 : parseURL (jsOrStr cfg.baseUrl DEFAULT_BASE_URL) = some u := hu
      have hiff : (u.protocol != "https:" && !strContains u.hostname "localhost" &&
          u.hostname != "127.0.0.1") = true ↔
          (u.protocol ≠ "https:" ∧ strContains u.hostname "localhost" = false ∧
            u.hostname ≠ "127.0.0.1") := by
        simp [Bool.and_eq_true, bne_iff_ne, Bool.not_eq_true', and_assoc]
      by_cases hcond : (u.protocol != "https:" && !strContains u.hostname "localhost" &&
          u.hostname != "127.0.0.1") = true
      · simp [hk, hu, hcond, hk2, hu2]
        obtain ⟨hpne, hcf, hhne⟩ := hiff.mp hcond
        exact ⟨hpne, hcf, hhne⟩
      · have hcondf : (u.protocol != "https:" && !strContains u.hostname "localhost" &&
            u.hostname != "127.0.0.1") = false := by
          cases hcb : (u.protocol != "https:" && !strContains u.hostname "localhost" &&
            u.hostname != "127.0.0.1")
          · rfl
          · exact absurd hcb hcond
        simp [hk, hu, hcondf, hk2, hu2]
        by_cases hp : u.protocol = "https:"
        · exact Or.inl hp
        · by_cases hc : strContains u.hostname "localhost" = true
          · exact Or.inr (Or.inl hc)
          · have hc2 : strContains u.hostname "localhost" = false := by
              cases hcb : strContains u.hostname "localhost"
              · rfl
              · exact absurd hcb hc
            by_cases hh : u.hostname = "127.0.0.1"
            · exact Or.inr (Or.inr hh)
            · exact absurd (hiff.mpr ⟨hp, hc2, hh⟩) hcond
  · have hk2 : ¬ isValidApiKey cfg.apiKey = true := hk
    simp [hk, hk2]

/-- Witness for C1: a valid key with an HTTPS base URL constructs. -/
theorem construction_validation_amended_witness :
    ∃ st, HttpClient.new
      { apiKey := "sk_live_v1_xyz", baseUrl := some "https://api.example.com/v2" } = .ok st :=
  (construction_validation_amended _).mpr
    ⟨by decide, ⟨⟨"https:", "api.example.com"⟩, by decide, Or.inl rfl⟩⟩

/-- C2: when the first attempt produces a classified error with HTTP
status 401, 403, 400, 404 or 402, or any RateLimit error regardless of
status, `request` re-throws that error after exactly one attempt, with
no further attempts and no backoff sleep. -/
theorem request_nonretryable_single_attempt {α : Type} (t : Nat → TransportResult α)
    (j : Nat → ℚ) (mr : Nat) (rl : Option RateLimitInfo) (r : MockResponse α)
    (se : SendlyError)
    (ht : t 0 = .resp r) (hp : parseResponseM r = .error se)
    (hclass : se.statusCode = some 401 ∨ se.statusCode = some 403 ∨ se.statusCode = some 400 ∨
      se.statusCode = some 404 ∨ se.statusCode = some 402 ∨ se.name = "RateLimitError") :
    (request t j mr rl).result = .error (.sendly se) ∧
      (request t j mr rl).attempts = 1 ∧ (request t j mr rl).waits = [] := by
  have hnr : nonRetryableJs (.sendly se) = true := by
    rcases hclass with h | h | h | h | h | h <;> simp [nonRetryableJs, h]
  have hatt : attemptOf (t 0) = .error (.sendly se) := by
    simp [attemptOf, ht, hp, Except.mapError]
  rw [request_first_nonretryable t j mr rl _ hatt hnr]
  exact ⟨rfl, rfl, rfl⟩

/-- Witness for C2: a transport answering HTTP 401 fails after exactly
one attempt with no backoff sleep. -/
theorem request_nonretryable_single_attempt_witness :
    (request transport401 jitter0 3 none).result = .error (.sendly err401) ∧
      (request transport401 jitter0 3 none).attempts = 1 ∧
      (request transport401 jitter0 3 none).waits = [] :=
  request_nonretryable_single_attempt transport401 jitter0 3 none resp401 err401 rfl
    (by decide) (Or.inl (by decide))

/-- C3: with a transport returning HTTP 500 on the first two attempts
and 200 on the third, `request` succeeds with the transport invoked
exactly three times (for every jitter draw); and when every attempt
fails with a retryable outcome, `request` numbers its attempts
0..maxRetries inclusive (maxRetries + 1 transport invocations), sleeps
a backoff between consecutive attempts (maxRetries sleeps), and raises
the error observed on the last attempt. -/
theorem request_retry_until_success_or_exhaustion :
    (∀ j : Nat → ℚ, (request transport500x2 j 3 none).result = .ok 42 ∧
      (request transport500x2 j 3 none).attempts = 3) ∧
    (∀ (α : Type) (t : Nat → TransportResult α) (j : Nat → ℚ) (mr : Nat)
      (rl : Option RateLimitInfo) (es : Nat → JsError),
      (∀ n, attemptOf (t n) = .error (es n) ∧ nonRetryableJs (es n) = false) →
      (request t j mr rl).result = .error (es mr) ∧
        (request t j mr rl).attempts = mr + 1 ∧ (request t j mr rl).waits.length = mr) := by
  constructor
  · intro j
    exact ⟨rfl, rfl⟩
  · intro α t j mr rl es H
    have h := requestGo_exhaust t j mr es H (mr + 1) 0 rl none (by omega) (by omega)
    refine ⟨h.1, h.2.1, ?_⟩
    have h3 := h.2.2
    unfold request
    omega

/-- Witness for C3: a transport that always answers HTTP 500 with
maxRetries 1 makes two attempts, sleeps once, and raises the 500
error. -/
theorem request_retry_until_success_or_exhaustion_witness :
    (request (fun _ => .resp resp500) jitter0 1 none).result = .error (.sendly err500) ∧
      (request (fun _ => .resp resp500) jitter0 1 none).attempts = 2 ∧
      (request (fun _ => .resp resp500) jitter0 1 none).waits.length = 1 := by
  have hA : attemptOf (TransportResult.resp resp500) = .error (.sendly err500) := by decide
  have hB : nonRetryableJs (.sendly err500) = false := by decide
  exact request_retry_until_success_or_exhaustion.2 Nat (fun _ => .resp resp500) jitter0 1
    none (fun _ => .sendly err500) (fun _ => ⟨hA, hB⟩)

/-- C4: for every attempt number n and jitter j in [0, 500), the
computed backoff is min(2^n * 1000 + j, 30000); and whenever two
consecutive backoffs are both below the 30000 cap, the second is
strictly greater than the first for all jitter draws. -/
theorem backoff_formula_and_growth :
    (∀ (n : Nat) (j : ℚ), calculateBackoff n j = min ((2:ℚ) ^ n * 1000 + j) 30000) ∧
    (∀ (n : Nat) (j1 j2 : ℚ), 0 ≤ j1 → j1 < 500 → 0 ≤ j2 → j2 < 500 →
      calculateBackoff n j1 < 30000 → calculateBackoff (n + 1) j2 < 30000 →
      calculateBackoff n j1 < calculateBackoff (n + 1) j2) := by
  constructor
  · intro n j
    rfl
  · intro n j1 j2 h1 h2 h3 h4 h5 h6
    have h2n : (1:ℚ) ≤ 2 ^ n := one_le_pow₀ (by norm_num)
    unfold calculateBackoff at h5 h6 ⊢
    have ha : (2:ℚ) ^ n * 1000 + j1 < 30000 := by
      by_contra hcon
      push_neg at hcon
      rw [min_eq_right hcon] at h5
      exact lt_irrefl _ h5
    have hb : (2:ℚ) ^ (n + 1) * 1000 + j2 < 30000 := by
      by_contra hcon
      push_neg at hcon
      rw [min_eq_right hcon] at h6
      exact lt_irrefl _ h6
    rw [min_eq_left (le_of_lt ha), min_eq_left (le_of_lt hb), pow_succ]
    nlinarith [h2n, h1, h2, h3]

/-- Witness for C4: concrete backoff values, with growth between
attempts 0 and 1. -/
theorem backoff_formula_and_growth_witness :
    calculateBackoff 2 250 = min ((2:ℚ) ^ 2 * 1000 + 250) 30000 ∧
      calculateBackoff 0 100 < calculateBackoff 1 50 :=
  ⟨backoff_formula_and_growth.1 2 250,
   backoff_formula_and_growth.2 0 100 50 (by norm_num) (by norm_num) (by norm_num)
     (by norm_num) (by norm_num [calculateBackoff]) (by norm_num [calculateBackoff])⟩

/-- C5 counterexample: a rate-limit body carrying `retryAfter: 0`
yields `retryAfterSeconds = 60`, not 0, because the source uses the
falsy-coalescing `response.retryAfter || 60`. -/
theorem rate_limit_retry_after_zero_counterexample :
    (SendlyError.fromResponse 429
      { error := some "rate_limit_exceeded", retryAfter := some 0 }).retryAfter = some 60 ∧
    (60 : Int) ≠ 0 := by decide

/-- C5 (amended): for every HTTP status and wire body with error code
`rate_limit_exceeded`, the factory returns a RateLimit error whose
`retryAfterSeconds` is `body.retryAfter` when that field is present and
nonzero, and 60 when it is absent or 0; an HTTP 429 body with
`retryAfter: 45` yields `retryAfterSeconds = 45` after exactly one
attempt. -/
theorem rate_limit_retry_after_amended :
    (∀ (status : Int) (body : ErrorResponse), body.error = some "rate_limit_exceeded" →
      SendlyError.fromResponse status body =
        { name := "RateLimitError",
          message := jsOrStr body.message "An unknown error occurred",
          code := "rate_limit_exceeded", statusCode := some status,
          retryAfter := some (jsOrInt body.retryAfter 60) }) ∧
    (∀ (j : Nat → ℚ) (mr : Nat),
      (request transport429 j mr none).attempts = 1 ∧
        ∃ e, (request transport429 j mr none).result = .error (.sendly e) ∧
          e.name = "RateLimitError" ∧ e.retryAfter = some 45) := by
  constructor
  · intro status body hb
    obtain ⟨be, bm, bra, bcn, bcb⟩ := body
    replace hb : be = some "rate_limit_exceeded" := hb
    subst hb
    rfl
  · intro j mr
    have hatt : attemptOf (transport429 0) = .error (.sendly err429) := by decide
    have hnr : nonRetryableJs (.sendly err429) = true := by decide
    rw [request_first_nonretryable transport429 j mr none _ hatt hnr]
    exact ⟨rfl, err429, rfl, by decide, by decide⟩

/-- Witness for C5: a concrete rate-limit body with a nonzero
`retryAfter` keeps its value. -/
theorem rate_limit_retry_after_amended_witness :
    SendlyError.fromResponse 503
      { error := some "rate_limit_exceeded", retryAfter := some 7 } =
      { name := "RateLimitError", message := "An unknown error occurred",
        code := "rate_limit_exceeded", statusCode := some 503, retryAfter := some 7 } :=
  rate_limit_retry_after_amended.1 503
    { error := some "rate_limit_exceeded", retryAfter := some 7 } rfl

/-- C6 counterexample: the round trip fails on the empty payload (for
the concrete HMAC stand-in): `verify` rejects an empty payload before
comparing signatures, so `verify(p, sign(p, secret), secret)` is false
at p = "". -/
theorem webhook_roundtrip_empty_payload_counterexample :
    verifyWebhookSignature hmacHexModel ""
      (generateWebhookSignature hmacHexModel "" "whsec") "whsec" = false := by decide

/-- C6 (amended): `sign` is deterministic, and the round trip
`verify(payload, sign(payload, secret), secret) = true` holds for every
non-empty payload and non-empty secret, for every choice of the HMAC
primitive. -/
theorem webhook_sign_deterministic_roundtrip_amended :
    (∀ (hm : String → String → String) (p1 p2 s1 s2 : String), p1 = p2 → s1 = s2 →
      generateWebhookSignature hm p1 s1 = generateWebhookSignature hm p2 s2) ∧
    (∀ (hm : String → String → String) (p s : String), p ≠ "" → s ≠ "" →
      verifyWebhookSignature hm p (generateWebhookSignature hm p s) s = true) := by
  constructor
  · intro hm p1 p2 s1 s2 hp hs
    rw [hp, hs]
  · intro hm p s hp hs
    have hsig : (generateWebhookSignature hm p s).isEmpty = false :=
      isEmpty_false_of_ne _ (sha_sig_ne_empty (hm s p))
    simp [verifyWebhookSignature, isEmpty_false_of_ne p hp, isEmpty_false_of_ne s hs,
      hsig, timingSafeEqualStrings]

/-- Witness for C6: the round trip on concrete non-empty inputs. -/
theorem webhook_sign_deterministic_roundtrip_amended_witness :
    verifyWebhookSignature hmacHexModel "pay"
      (generateWebhookSignature hmacHexModel "pay" "sec") "sec" = true :=
  webhook_sign_deterministic_roundtrip_amended.2 hmacHexModel "pay" "sec"
    (by decide) (by decide)

/-- C7: `verify` never throws; it returns false whenever payload,
signature or secret is empty, and returns false whenever the supplied
signature differs from the expected signature for that payload and
secret (covering single-byte alterations, different lengths, and wrong
secrets). -/
theorem webhook_verify_rejects :
    (∀ (hm : String → String → String) (p sig s : String),
      p = "" ∨ sig = "" ∨ s = "" → verifyWebhookSignature hm p sig s = false) ∧
    (∀ (hm : String → String → String) (p sig s : String),
      sig ≠ generateWebhookSignature hm p s → verifyWebhookSignature hm p sig s = false) := by
  constructor
  · intro hm p sig s hf
    rcases hf with h | h | h <;> subst h <;> simp [verifyWebhookSignature, empty_isEmpty]
  · intro hm p sig s hne
    unfold verifyWebhookSignature
    by_cases hguard : (p.isEmpty || sig.isEmpty || s.isEmpty) = true
    · simp [hguard]
    · simp only [Bool.not_eq_true] at hguard
      simp only [hguard]
      simp [timingSafeEqualStrings]
      intro _
      simp [hne]

/-- Witness for C7: empty payload and a wrong signature are both
rejected on concrete inputs. -/
theorem webhook_verify_rejects_witness :
    verifyWebhookSignature hmacHexModel "" "sig" "sec" = false ∧
      verifyWebhookSignature hmacHexModel "pay" "sha256=bogus" "sec" = false :=
  ⟨webhook_verify_rejects.1 hmacHexModel "" "sig" "sec" (Or.inl rfl),
   webhook_verify_rejects.2 hmacHexModel "pay" "sha256=bogus" "sec" (by decide)⟩

/-- C8: `parse` raises the dedicated signature error exactly when
verification fails; when verification succeeds but the payload is
malformed (parse failure, or a missing or empty id, type or createdAt)
it raises the distinct structural error; an event is returned only for
a payload that is both authentically signed and structurally valid. -/
theorem webhook_parse_error_discipline (hm : String → String → String)
    (jp : String → Option WebhookEventJs) (p sig s : String) :
    (parseWebhookEvent hm jp p sig s = .error .signatureError ↔
      verifyWebhookSignature hm p sig s = false) ∧
    (verifyWebhookSignature hm p sig s = true → jp p = none →
      parseWebhookEvent hm jp p sig s =
        .error (.genericError "Failed to parse webhook payload")) ∧
    (∀ ev, verifyWebhookSignature hm p sig s = true → jp p = some ev →
      ¬(jsTruthyStr ev.id = true ∧ jsTruthyStr ev.type = true ∧
        jsTruthyStr ev.createdAt = true) →
      parseWebhookEvent hm jp p sig s =
        .error (.genericError "Invalid webhook event structure")) ∧
    (∀ ev, parseWebhookEvent hm jp p sig s = .ok ev →
      verifyWebhookSignature hm p sig s = true ∧ jp p = some ev ∧
        jsTruthyStr ev.id = true ∧ jsTruthyStr ev.type = true ∧
        jsTruthyStr ev.createdAt = true) := by
  unfold parseWebhookEvent
  by_cases hv : verifyWebhookSignature hm p sig s = true
  · refine ⟨?_, ?_, ?_, ?_⟩
    · simp only [hv, if_true]
      constructor
      · intro h
        cases hjp : jp p with
        | none => rw [hjp] at h; cases h
        | some ev =>
          rw [hjp] at h
          by_cases hfields : (jsTruthyStr ev.id && jsTruthyStr ev.type &&
              jsTruthyStr ev.createdAt) = true
          · simp [hfields] at h
          · simp only [Bool.not_eq_true] at hfields
            simp [hfields] at h
      · intro h; simp at h
    · intro _ hjp; simp [hv, hjp]
    · intro ev _ hjp hfields
      have hf2 : (jsTruthyStr ev.id && jsTruthyStr ev.type &&
          jsTruthyStr ev.createdAt) = false := by
        cases hb : (jsTruthyStr ev.id && jsTruthyStr ev.type && jsTruthyStr ev.createdAt)
        · rfl
        · exact absurd (by simpa [Bool.and_eq_true, and_assoc] using hb) hfields
      simp [hv, hjp, hf2]
    · intro ev h
      simp only [hv, if_true] at h
      cases hjp : jp p with
      | none => rw [hjp] at h; cases h
      | some ev2 =>
        rw [hjp] at h
        by_cases hfields : (jsTruthyStr ev2.id && jsTruthyStr ev2.type &&
            jsTruthyStr ev2.createdAt) = true
        · simp only [hfields, if_true] at h
          have hev : ev2 = ev := Except.ok.inj h
          subst hev
          have hfx : jsTruthyStr ev2.id = true ∧ jsTruthyStr ev2.type = true ∧
              jsTruthyStr ev2.createdAt = true := by
            simpa [Bool.and_eq_true, and_assoc] using hfields
          exact ⟨hv, rfl, hfx⟩
        · simp only [Bool.not_eq_true] at hfields
          simp [hfields] at h
  · have hv2 : verifyWebhookSignature hm p sig s = false := by
      cases hb : verifyWebhookSignature hm p sig s
      · rfl
      · exact absurd hb hv
    refine ⟨?_, ?_, ?_, ?_⟩
    · simp [hv2]
    · intro h; rw [h] at hv2; cases hv2
    · intro ev h; rw [h] at hv2; cases hv2
    · intro ev h; simp [hv2] at h

/-- Witness for C8: a bad signature on a concrete payload raises the
dedicated signature error. -/
theorem webhook_parse_error_discipline_witness :
    parseWebhookEvent hmacHexModel jsonParseModel "valid-payload" "bad" "sec" =
      .error .signatureError :=
  (webhook_parse_error_discipline hmacHexModel jsonParseModel "valid-payload" "bad" "sec").1.mpr
    (by decide)

/-- C9 counterexample: with all three rate-limit headers present but
`X-RateLimit-Limit` carrying the empty string, the prior snapshot is
left unchanged rather than replaced with the parsed values, because the
source guards with JavaScript truthiness (`limit && remaining &&
reset`) and the empty string is falsy. -/
theorem rate_limit_snapshot_empty_header_counterexample :
    (HttpClientState.updateRateLimit
      ⟨⟨"sk_test_v1_abc", "https://sendly.live/api/", 30000, 3⟩, some ⟨some 9, some 9, some 9⟩⟩
      ⟨some "", some "1", some "2"⟩).rateLimitInfo = some ⟨some 9, some 9, some 9⟩ ∧
    (some (⟨some 9, some 9, some 9⟩ : RateLimitInfo) ≠
      some ⟨jsParseInt "", jsParseInt "1", jsParseInt "2"⟩) := by decide

/-- C9 (amended): when the three rate-limit headers are all present
with non-empty values, the snapshot is replaced with the three parsed
integers; when any is absent or empty, the prior snapshot is left
completely unchanged; rate-limit tracking never touches the
configuration; and the update is applied from the response headers
even on an attempt whose response is an error. -/
theorem rate_limit_snapshot_update_amended :
    (∀ (st : HttpClientState) (h : RateHeaders) (l r s : String),
      h.limit = some l → h.remaining = some r → h.reset = some s →
      l ≠ "" → r ≠ "" → s ≠ "" →
      (st.updateRateLimit h).rateLimitInfo =
        some ⟨jsParseInt l, jsParseInt r, jsParseInt s⟩) ∧
    (∀ (st : HttpClientState) (h : RateHeaders),
      jsTruthyStr h.limit = false ∨ jsTruthyStr h.remaining = false ∨
        jsTruthyStr h.reset = false →
      (st.updateRateLimit h).rateLimitInfo = st.rateLimitInfo) ∧
    (∀ (st : HttpClientState) (h : RateHeaders),
      (st.updateRateLimit h).config = st.config) ∧
    (∀ (t : Nat → TransportResult Nat) (j : Nat → ℚ) (mr : Nat)
      (rl : Option RateLimitInfo) (r : MockResponse Nat) (se : SendlyError),
      t 0 = .resp r → parseResponseM r = .error se → nonRetryableJs (.sendly se) = true →
      (request t j mr rl).rateLimitInfo = updateRateLimitInfo rl r.headers) := by
  refine ⟨?_, ?_, ?_, ?_⟩
  · intro st h l r s hl hr hs hl2 hr2 hs2
    simp [HttpClientState.updateRateLimit, updateRateLimitInfo, hl, hr, hs,
      isEmpty_false_of_ne l hl2, isEmpty_false_of_ne r hr2, isEmpty_false_of_ne s hs2]
  · intro st h hf
    unfold HttpClientState.updateRateLimit updateRateLimitInfo
    cases hl : h.limit with
    | none => simp
    | some l =>
      cases hr : h.remaining with
      | none => simp
      | some r =>
        cases hs : h.reset with
        | none => simp
        | some s =>
          rcases hf with hx | hx | hx <;> simp [jsTruthyStr, hl, hr, hs] at hx <;>
            simp [hx]
  · intro st h
    rfl
  · intro t j mr rl r se ht hp hnr
    have hatt : attemptOf (t 0) = .error (.sendly se) := by
      simp [attemptOf, ht, hp, Except.mapError]
    rw [request_first_nonretryable t j mr rl _ hatt hnr, ht]
    rfl

/-- Witness for C9: three concrete headers replace the snapshot with
their parsed integers. -/
theorem rate_limit_snapshot_update_amended_witness :
    (HttpClientState.updateRateLimit
      ⟨⟨"sk_test_v1_abc", "https://sendly.live/api/", 30000, 3⟩, none⟩
      ⟨some "100", some "42", some "1700"⟩).rateLimitInfo =
      some ⟨some 100, some 42, some 1700⟩ :=
  rate_limit_snapshot_update_amended.1
    ⟨⟨"sk_test_v1_abc", "https://sendly.live/api/", 30000, 3⟩, none⟩
    ⟨some "100", some "42", some "1700"⟩ "100" "42" "1700" rfl rfl rfl
    (by decide) (by decide) (by decide)

/-- C10: configuration defaulting is asymmetric at the public
constructor: a caller-supplied timeout of 0 is silently replaced by the
default 30000 (falsy coalescing), whereas a caller-supplied maxRetries
is preserved even at 0 (nullish coalescing); with maxRetries 0, a
failing retryable request makes exactly one attempt with no retries and
no backoff sleep. -/
theorem config_defaulting_asymmetry :
    (∀ cfg : HttpClientConfigIn, cfg.timeout = some 0 →
      (Sendly.resolveConfig cfg).timeout = 30000 ∧ (resolveHttpConfig cfg).timeout = 30000) ∧
    (∀ (cfg : HttpClientConfigIn) (n : Nat), cfg.maxRetries = some n →
      (Sendly.resolveConfig cfg).maxRetries = n ∧ (resolveHttpConfig cfg).maxRetries = n) ∧
    (∀ (α : Type) (t : Nat → TransportResult α) (j : Nat → ℚ) (rl : Option RateLimitInfo)
      (e : JsError), attemptOf (t 0) = .error e → nonRetryableJs e = false →
      (request t j 0 rl).attempts = 1 ∧ (request t j 0 rl).waits = [] ∧
        (request t j 0 rl).result = .error e) := by
  refine ⟨?_, ?_, ?_⟩
  · intro cfg h
    simp [Sendly.resolveConfig, resolveHttpConfig, jsOrInt, h, DEFAULT_TIMEOUT, DEFAULT_TIMEOUT2]
  · intro cfg n h
    simp [Sendly.resolveConfig, resolveHttpConfig, h]
  · intro α t j rl e ht hnr
    have h := requestGo_last_retryable t j 0 0 0 rl none e ht hnr (by omega)
    unfold request
    rw [h]
    exact ⟨rfl, rfl, rfl⟩

/-- Witness for C10: timeout 0 becomes 30000, maxRetries 0 is kept, and
a failing request with maxRetries 0 makes one attempt. -/
theorem config_defaulting_asymmetry_witness :
    (Sendly.resolveConfig
      { apiKey := "sk_test_v1_abc", timeout := some 0, maxRetries := some 0 }).timeout = 30000 ∧
    (Sendly.resolveConfig
      { apiKey := "sk_test_v1_abc", timeout := some 0, maxRetries := some 0 }).maxRetries = 0 ∧
    (request (fun _ => .resp resp500) jitter0 0 none).attempts = 1 :=
  ⟨(config_defaulting_asymmetry.1 _ rfl).1,
   (config_defaulting_asymmetry.2.1 _ 0 rfl).1,
   (config_defaulting_asymmetry.2.2 Nat (fun _ => .resp resp500) jitter0 none (.sendly err500)
     (by decide) (by decide)).1⟩
